import Mathlib

/-!
Verification of the transaction command model in
`src/storage/txn/commands.rs`: the `Command`/`CommandKind` catalog, its
derived classification functions (`readonly`, `is_sys_cmd`,
`need_flow_control`, `tag`, `ts`, `write_bytes`), the `Display` rendering,
`PointGetCommand`, and `Options`.

Embedding conventions: Rust `u64`/`usize` become `Nat`, `i64` becomes
`Int`, `Vec<u8>` becomes `List Nat`, `Vec<T>` becomes `List T`, the
`HashMap` carried (but never consulted) by `ResolveLock` becomes an
association list, and the imperative `bytes += …` loops of `write_bytes`
become `List.foldl` with named step functions.  External collaborator
types (`txn_types::{Key, Lock, TimeStamp, Mutation}`, `kvproto`'s
`Context`, `GetRequest`, `RawGetRequest`) are modelled from the spec's
description of them, keeping exactly the structure this file consumes.
-/

namespace Tikv

/-- Timestamps: opaque totally ordered logical clock values issued by the
external timestamp authority; modelled as `Nat`. -/
abbrev TimeStamp := Nat

/-- The reserved sentinel timestamp (`TimeStamp::zero()`), meaning
"not applicable". -/
def TimeStamp.zero : TimeStamp := 0

/-- Raw byte strings (`Vec<u8>`); each byte a `Nat`. -/
abbrev Bytes := List Nat

/-- Modelled from the spec: `txn_types::Key` is an opaque encoded byte
sequence; we carry the encoded form directly. -/
structure Key where
  encoded : Bytes
deriving DecidableEq

/-- `Key::as_encoded()`: the encoded byte form of the key. -/
def Key.as_encoded (k : Key) : Bytes := k.encoded

/-- Modelled from the spec: `Key::from_raw` produces the opaque encoded
form of raw bytes.  The memcomparable encoding lives in the external
`txn_types` crate; no claim depends on its details, so the encoded form
wraps the raw bytes opaquely. -/
def Key.from_raw (raw : Bytes) : Key := ⟨raw⟩

/-- `kvproto::kvrpcpb::CommandPri`: the three priority levels. -/
inductive CommandPri where
  | Low
  | Normal
  | High
deriving DecidableEq

/-- Modelled from the spec: the request context is opaque to this core
except for priority extraction (`ctx.get_priority()`); `debugRepr` stands
for its `{:?}` Debug rendering used by `Display for Command`. -/
structure Context where
  priority : CommandPri
  debugRepr : String

/-- `txn_types::Mutation`: the unit of change a Prewrite applies.
`Put`/`Insert` carry a `(key, value)` pair, `Delete`/`Lock` a key. -/
inductive Mutation where
  | Put : Key × Bytes → Mutation
  | Insert : Key × Bytes → Mutation
  | Delete : Key → Mutation
  | Lock : Key → Mutation
deriving DecidableEq

/-- Modelled from the spec: a lock is (owning transaction start timestamp,
primary key reference, TTL, optional short value); `txn_types::Lock` is an
external type that this file only carries in `ResolveLock.key_locks`. -/
structure Lock where
  ts : TimeStamp
  primary : Bytes
  ttl : Nat
  short_value : Option Bytes
deriving DecidableEq

/-- The per-command tuning bundle `Options`. -/
structure Options where
  lock_ttl : Nat
  skip_constraint_check : Bool
  key_only : Bool
  reverse_scan : Bool
  is_first_lock : Bool
  for_update_ts : TimeStamp
  is_pessimistic_lock : List Bool
  txn_size : Nat
  min_commit_ts : TimeStamp
  wait_timeout : Int
deriving DecidableEq

/-- `Options::default()` (derived `Default`): all-zero / all-false /
empty. -/
def Options.default : Options :=
  ⟨0, false, false, false, false, 0, [], 0, 0, 0⟩

/-- `Options::new(lock_ttl, skip_constraint_check, key_only)`. -/
def Options.new (lock_ttl : Nat) (skip_constraint_check : Bool)
    (key_only : Bool) : Options :=
  { Options.default with
      lock_ttl := lock_ttl
      skip_constraint_check := skip_constraint_check
      key_only := key_only }

/-- `Options::reverse_scan`, the fluent setter (`self.reverse_scan = true;
self`).  Named `reverseScan` because the field accessor already takes the
source name. -/
def Options.reverseScan (o : Options) : Options :=
  { o with reverse_scan := true }

/-- `CommandKind`: the closed 15-variant catalog of protocol operations. -/
inductive CommandKind where
  | Prewrite (mutations : List Mutation) (primary : Bytes)
      (start_ts : TimeStamp) (options : Options)
  | AcquirePessimisticLock (keys : List (Key × Bool)) (primary : Bytes)
      (start_ts : TimeStamp) (options : Options)
  | Commit (keys : List Key) (lock_ts : TimeStamp) (commit_ts : TimeStamp)
  | Cleanup (key : Key) (start_ts : TimeStamp) (current_ts : TimeStamp)
  | Rollback (keys : List Key) (start_ts : TimeStamp)
  | PessimisticRollback (keys : List Key) (start_ts : TimeStamp)
      (for_update_ts : TimeStamp)
  | TxnHeartBeat (primary_key : Key) (start_ts : TimeStamp)
      (advise_ttl : Nat)
  | CheckTxnStatus (primary_key : Key) (lock_ts : TimeStamp)
      (caller_start_ts : TimeStamp) (current_ts : TimeStamp)
      (rollback_if_not_exist : Bool)
  | ScanLock (max_ts : TimeStamp) (start_key : Option Key) (limit : Nat)
  | ResolveLock (txn_status : List (TimeStamp × TimeStamp))
      (scan_key : Option Key) (key_locks : List (Key × Lock))
  | ResolveLockLite (start_ts : TimeStamp) (commit_ts : TimeStamp)
      (resolve_keys : List Key)
  | DeleteRange (start_key : Key) (end_key : Key)
  | Pause (keys : List Key) (duration : Nat)
  | MvccByKey (key : Key)
  | MvccByStartTs (start_ts : TimeStamp)

/-- `Command`: a request context plus a `CommandKind`. -/
structure Command where
  ctx : Context
  kind : CommandKind

/-- `Command::readonly`. -/
def Command.readonly (c : Command) : Bool :=
  match c.kind with
  | .ScanLock .. | .DeleteRange .. | .MvccByKey .. | .MvccByStartTs .. =>
      true
  | .ResolveLock _ _ key_locks => key_locks.isEmpty
  | _ => false

/-- `Command::priority`: forwards the context's priority. -/
def Command.priority (c : Command) : CommandPri := c.ctx.priority

/-- `Command::is_sys_cmd`. -/
def Command.is_sys_cmd (c : Command) : Bool :=
  match c.kind with
  | .ScanLock .. | .ResolveLock .. | .ResolveLockLite .. => true
  | _ => false

/-- `Command::need_flow_control`:
`!self.readonly() && self.priority() != CommandPri::High`. -/
def Command.need_flow_control (c : Command) : Bool :=
  !c.readonly && c.priority != CommandPri.High

/-- `metrics::CommandKind`: the metrics identifiers returned by
`Command::tag`. -/
inductive MetricsCommandKind where
  | prewrite
  | acquire_pessimistic_lock
  | commit
  | cleanup
  | rollback
  | pessimistic_rollback
  | txn_heart_beat
  | check_txn_status
  | scan_lock
  | resolve_lock
  | resolve_lock_lite
  | delete_range
  | pause
  | key_mvcc
  | start_ts_mvcc
deriving DecidableEq

/-- `Command::tag`: variant → metrics identifier. -/
def Command.tag (c : Command) : MetricsCommandKind :=
  match c.kind with
  | .Prewrite .. => .prewrite
  | .AcquirePessimisticLock .. => .acquire_pessimistic_lock
  | .Commit .. => .commit
  | .Cleanup .. => .cleanup
  | .Rollback .. => .rollback
  | .PessimisticRollback .. => .pessimistic_rollback
  | .TxnHeartBeat .. => .txn_heart_beat
  | .CheckTxnStatus .. => .check_txn_status
  | .ScanLock .. => .scan_lock
  | .ResolveLock .. => .resolve_lock
  | .ResolveLockLite .. => .resolve_lock_lite
  | .DeleteRange .. => .delete_range
  | .Pause .. => .pause
  | .MvccByKey .. => .key_mvcc
  | .MvccByStartTs .. => .start_ts_mvcc

/-- `Command::ts`: the governing timestamp of the command. -/
def Command.ts (c : Command) : TimeStamp :=
  match c.kind with
  | .Prewrite _ _ start_ts _ => start_ts
  | .AcquirePessimisticLock _ _ start_ts _ => start_ts
  | .Cleanup _ start_ts _ => start_ts
  | .Rollback _ start_ts => start_ts
  | .PessimisticRollback _ start_ts _ => start_ts
  | .MvccByStartTs start_ts => start_ts
  | .TxnHeartBeat _ start_ts _ => start_ts
  | .Commit _ lock_ts _ => lock_ts
  | .CheckTxnStatus _ lock_ts _ _ _ => lock_ts
  | .ScanLock max_ts _ _ => max_ts
  | .ResolveLockLite start_ts _ _ => start_ts
  | .ResolveLock .. | .DeleteRange .. | .Pause .. | .MvccByKey .. =>
      TimeStamp.zero

/-- Loop body of `Command::write_bytes` for the `Prewrite` arm:
Put/Insert add encoded key length plus value length, Delete/Lock add the
encoded key length alone. -/
def prewriteStep (bytes : Nat) (m : Mutation) : Nat :=
  match m with
  | .Put (key, value) | .Insert (key, value) =>
      bytes + key.as_encoded.length + value.length
  | .Delete key | .Lock key => bytes + key.as_encoded.length

/-- Loop body of `write_bytes` for key lists: add each encoded key
length. -/
def keyStep (bytes : Nat) (key : Key) : Nat :=
  bytes + key.as_encoded.length

/-- `Command::write_bytes`. -/
def Command.write_bytes (c : Command) : Nat :=
  match c.kind with
  | .Prewrite mutations _ _ _ => mutations.foldl prewriteStep 0
  | .AcquirePessimisticLock keys _ _ _ =>
      keys.foldl (fun bytes kv => bytes + kv.fst.as_encoded.length) 0
  | .Commit keys _ _ | .Rollback keys _
  | .PessimisticRollback keys _ _ | .Pause keys _ =>
      keys.foldl keyStep 0
  | .ResolveLock _ _ key_locks =>
      key_locks.foldl (fun bytes lock => bytes + lock.fst.as_encoded.length) 0
  | .ResolveLockLite _ _ resolve_keys => resolve_keys.foldl keyStep 0
  | .Cleanup key _ _ => key.as_encoded.length
  | .TxnHeartBeat primary_key _ _ => primary_key.as_encoded.length
  | .CheckTxnStatus primary_key _ _ _ _ => primary_key.as_encoded.length
  | _ => 0

/-- Modelled from the spec: the `{:?}` Debug rendering of the external
`Key` type; claims only depend on the rendering of the context, so any
deterministic rendering of the encoded bytes serves. -/
def Key.debugStr (k : Key) : String := toString k.encoded

/-- Modelled from the spec: the `{}` Display rendering of the external
`Key` type. -/
def Key.displayStr (k : Key) : String := toString k.encoded

/-- Debug rendering of an `Option<Key>` (`{:?}` in the ScanLock arm). -/
def optionKeyDebug : Option Key → String
  | none => "None"
  | some k => "Some(" ++ k.debugStr ++ ")"

/-- `impl Display for Command`: the one-line human-readable rendering.
Each arm transcribes the corresponding `write!` format string. -/
def Command.fmt (c : Command) : String :=
  match c.kind with
  | .Prewrite mutations _ start_ts _ =>
      "kv::command::prewrite mutations(" ++ toString mutations.length
        ++ ") @ " ++ toString start_ts ++ " | " ++ c.ctx.debugRepr
  | .AcquirePessimisticLock keys _ start_ts options =>
      "kv::command::acquirepessimisticlock keys(" ++ toString keys.length
        ++ ") @ " ++ toString start_ts ++ " "
        ++ toString options.for_update_ts ++ " | " ++ c.ctx.debugRepr
  | .Commit keys lock_ts commit_ts =>
      "kv::command::commit " ++ toString keys.length ++ " "
        ++ toString lock_ts ++ " -> " ++ toString commit_ts ++ " | "
        ++ c.ctx.debugRepr
  | .Cleanup key start_ts _ =>
      "kv::command::cleanup " ++ key.displayStr ++ " @ "
        ++ toString start_ts ++ " | " ++ c.ctx.debugRepr
  | .Rollback keys start_ts =>
      "kv::command::rollback keys(" ++ toString keys.length ++ ") @ "
        ++ toString start_ts ++ " | " ++ c.ctx.debugRepr
  | .PessimisticRollback keys start_ts for_update_ts =>
      "kv::command::pessimistic_rollback keys(" ++ toString keys.length
        ++ ") @ " ++ toString start_ts ++ " " ++ toString for_update_ts
        ++ " | " ++ c.ctx.debugRepr
  | .TxnHeartBeat primary_key start_ts advise_ttl =>
      "kv::command::txn_heart_beat " ++ primary_key.displayStr ++ " @ "
        ++ toString start_ts ++ " ttl " ++ toString advise_ttl ++ " | "
        ++ c.ctx.debugRepr
  | .CheckTxnStatus primary_key lock_ts caller_start_ts current_ts _ =>
      "kv::command::check_txn_status " ++ primary_key.displayStr ++ " @ "
        ++ toString lock_ts ++ " curr(" ++ toString caller_start_ts
        ++ ", " ++ toString current_ts ++ ") | " ++ c.ctx.debugRepr
  | .ScanLock max_ts start_key limit =>
      "kv::scan_lock " ++ optionKeyDebug start_key ++ " "
        ++ toString limit ++ " @ " ++ toString max_ts ++ " | "
        ++ c.ctx.debugRepr
  | .ResolveLock .. => "kv::resolve_lock"
  | .ResolveLockLite .. => "kv::resolve_lock_lite"
  | .DeleteRange start_key end_key =>
      "kv::command::delete range [" ++ start_key.debugStr ++ ", "
        ++ end_key.debugStr ++ ") | " ++ c.ctx.debugRepr
  | .Pause keys duration =>
      "kv::command::pause keys:(" ++ toString keys.length ++ ") "
        ++ toString duration ++ " ms | " ++ c.ctx.debugRepr
  | .MvccByKey key =>
      "kv::command::mvccbykey " ++ key.debugStr ++ " | " ++ c.ctx.debugRepr
  | .MvccByStartTs start_ts =>
      "kv::command::mvccbystartts " ++ toString start_ts ++ " | "
        ++ c.ctx.debugRepr

/-- Modelled from the spec: `kvproto::kvrpcpb::GetRequest` carries a
context, raw key bytes, and a version timestamp. -/
structure GetRequest where
  context : Context
  key : Bytes
  version : TimeStamp

/-- Modelled from the spec: `kvproto::kvrpcpb::RawGetRequest` carries a
context and raw key bytes, with no timestamp. -/
structure RawGetRequest where
  context : Context
  key : Bytes

/-- `PointGetCommand`: the fast-path single-key read descriptor; `ts` is
`none` for a raw get and `some` for a transactional get. -/
structure PointGetCommand where
  ctx : Context
  key : Key
  ts : Option TimeStamp

/-- `PointGetCommand::from_get`. -/
def PointGetCommand.from_get (request : GetRequest) : PointGetCommand :=
  { ctx := request.context
    key := Key.from_raw request.key
    ts := some request.version }

/-- `PointGetCommand::from_raw_get`. -/
def PointGetCommand.from_raw_get (request : RawGetRequest) :
    PointGetCommand :=
  { ctx := request.context
    key := Key.from_raw request.key
    ts := none }

/-! ### Spec-side enumerations

These restate the spec's enumerations of per-variant behaviour, listing
all 15 variants explicitly, to be compared with the source definitions
(which use grouped patterns and catch-alls). -/

/-- The spec's enumeration of read-only-ness: true for ScanLock,
DeleteRange, MvccByKey, MvccByStartTs; for ResolveLock exactly when
`key_locks` is empty; false for the ten remaining variants. -/
def readonlySpec : CommandKind → Bool
  | .ScanLock .. => true
  | .DeleteRange .. => true
  | .MvccByKey .. => true
  | .MvccByStartTs .. => true
  | .ResolveLock _ _ key_locks => key_locks.isEmpty
  | .Prewrite .. => false
  | .Commit .. => false
  | .Rollback .. => false
  | .AcquirePessimisticLock .. => false
  | .PessimisticRollback .. => false
  | .Cleanup .. => false
  | .TxnHeartBeat .. => false
  | .CheckTxnStatus .. => false
  | .ResolveLockLite .. => false
  | .Pause .. => false

/-- The spec's enumeration of system commands: exactly ScanLock,
ResolveLock, ResolveLockLite. -/
def isSysCmdSpec : CommandKind → Bool
  | .ScanLock .. => true
  | .ResolveLock .. => true
  | .ResolveLockLite .. => true
  | .Prewrite .. => false
  | .AcquirePessimisticLock .. => false
  | .Commit .. => false
  | .Cleanup .. => false
  | .Rollback .. => false
  | .PessimisticRollback .. => false
  | .TxnHeartBeat .. => false
  | .CheckTxnStatus .. => false
  | .DeleteRange .. => false
  | .Pause .. => false
  | .MvccByKey .. => false
  | .MvccByStartTs .. => false

/-! ### Theorems for the claims -/

/-- C1: `readonly()` returns true exactly when the kind is ScanLock,
DeleteRange, MvccByKey, MvccByStartTs, or ResolveLock with an empty
`key_locks` list; and false for ResolveLock with at least one key_lock
and for every remaining variant. -/
theorem readonly_matches_spec (c : Command) :
    c.readonly = readonlySpec c.kind ∧
      (∀ txn_status scan_key key_lock key_locks,
        c.kind = .ResolveLock txn_status scan_key (key_lock :: key_locks) →
          c.readonly = false) := by
  obtain ⟨ctx, kind⟩ := c
  refine ⟨?_, ?_⟩
  · cases kind <;> rfl
  · intro txn_status scan_key key_lock key_locks h
    cases kind <;> simp_all [Command.readonly]

/-- C1 witness: a ResolveLock with one key_lock is not read-only. -/
theorem readonly_matches_spec_witness :
    (Command.mk ⟨CommandPri.Normal, "c"⟩
        (.ResolveLock [] none [(⟨[1]⟩, ⟨2, [1], 3, none⟩)])).readonly
      = false :=
  (readonly_matches_spec _).2 [] none (⟨[1]⟩, ⟨2, [1], 3, none⟩) [] rfl

/-- C6: `is_sys_cmd()` is true exactly for ScanLock, ResolveLock,
ResolveLockLite. -/
theorem is_sys_cmd_matches_spec (c : Command) :
    c.is_sys_cmd = isSysCmdSpec c.kind := by
  obtain ⟨ctx, kind⟩ := c
  cases kind <;> rfl

/-- C2: `need_flow_control()` is true iff the command is not read-only
and its priority is not High; in particular it is false whenever
`readonly()` is true and false whenever priority is High. -/
theorem need_flow_control_characterization (c : Command) :
    (c.need_flow_control = true ↔
      (c.readonly = false ∧ c.priority ≠ CommandPri.High)) ∧
    (c.readonly = true → c.need_flow_control = false) ∧
    (c.priority = CommandPri.High → c.need_flow_control = false) := by
  refine ⟨?_, ?_, ?_⟩
  · simp [Command.need_flow_control, bne_iff_ne, Bool.not_eq_true']
  · intro h
    simp [Command.need_flow_control, h]
  · intro h
    simp [Command.need_flow_control, h]

/-- C2 witness: a read-only ScanLock under Normal priority needs no flow
control, and a High-priority Prewrite needs none either. -/
theorem need_flow_control_characterization_witness :
    (Command.mk ⟨CommandPri.Normal, "c"⟩
        (.ScanLock 1 none 2)).need_flow_control = false ∧
    (Command.mk ⟨CommandPri.High, "c"⟩
        (.Prewrite [] [] 1 Options.default)).need_flow_control = false :=
  ⟨(need_flow_control_characterization _).2.1 rfl,
   (need_flow_control_characterization _).2.2 rfl⟩

/-- The spec's enumeration of the governing timestamp: `start_ts` for the
start-anchored variants, `lock_ts` for Commit/CheckTxnStatus, `max_ts`
for ScanLock, and the zero sentinel for ResolveLock, DeleteRange, Pause,
MvccByKey. -/
def tsSpec : CommandKind → TimeStamp
  | .Prewrite _ _ start_ts _ => start_ts
  | .AcquirePessimisticLock _ _ start_ts _ => start_ts
  | .Cleanup _ start_ts _ => start_ts
  | .Rollback _ start_ts => start_ts
  | .PessimisticRollback _ start_ts _ => start_ts
  | .TxnHeartBeat _ start_ts _ => start_ts
  | .MvccByStartTs start_ts => start_ts
  | .ResolveLockLite start_ts _ _ => start_ts
  | .Commit _ lock_ts _ => lock_ts
  | .CheckTxnStatus _ lock_ts _ _ _ => lock_ts
  | .ScanLock max_ts _ _ => max_ts
  | .ResolveLock .. => TimeStamp.zero
  | .DeleteRange .. => TimeStamp.zero
  | .Pause .. => TimeStamp.zero
  | .MvccByKey .. => TimeStamp.zero

/-- The four-element set of variants for which `ts()` is the zero
sentinel. -/
def sentinelKind : CommandKind → Bool
  | .ResolveLock .. => true
  | .DeleteRange .. => true
  | .Pause .. => true
  | .MvccByKey .. => true
  | _ => false

/-- "Non-zero timestamp inputs": every timestamp field carried directly
by the variant is non-zero. -/
def tsInputsNonZero : CommandKind → Bool
  | .Prewrite _ _ start_ts _ => start_ts != 0
  | .AcquirePessimisticLock _ _ start_ts _ => start_ts != 0
  | .Commit _ lock_ts commit_ts => lock_ts != 0 && commit_ts != 0
  | .Cleanup _ start_ts current_ts => start_ts != 0 && current_ts != 0
  | .Rollback _ start_ts => start_ts != 0
  | .PessimisticRollback _ start_ts for_update_ts =>
      start_ts != 0 && for_update_ts != 0
  | .TxnHeartBeat _ start_ts _ => start_ts != 0
  | .CheckTxnStatus _ lock_ts caller_start_ts current_ts _ =>
      lock_ts != 0 && caller_start_ts != 0 && current_ts != 0
  | .ScanLock max_ts _ _ => max_ts != 0
  | .ResolveLockLite start_ts commit_ts _ =>
      start_ts != 0 && commit_ts != 0
  | .MvccByStartTs start_ts => start_ts != 0
  | .ResolveLock .. => true
  | .DeleteRange .. => true
  | .Pause .. => true
  | .MvccByKey .. => true

/-- C3: `ts()` returns `start_ts` for the start-anchored variants,
`lock_ts` for Commit/CheckTxnStatus, `max_ts` for ScanLock, and the zero
sentinel exactly for ResolveLock, DeleteRange, Pause, MvccByKey; with
non-zero timestamp inputs, `ts()` is zero exactly on that four-element
set. -/
theorem ts_governing_timestamp (c : Command) :
    c.ts = tsSpec c.kind ∧
      (tsInputsNonZero c.kind = true →
        (c.ts = TimeStamp.zero ↔ sentinelKind c.kind = true)) := by
  obtain ⟨ctx, kind⟩ := c
  refine ⟨by cases kind <;> rfl, fun h => ?_⟩
  cases kind <;>
    simp_all [Command.ts, sentinelKind, tsInputsNonZero, TimeStamp.zero,
      bne_iff_ne]

/-- C3 witness: a Commit with non-zero timestamps has `ts() = lock_ts ≠ 0`,
and a concrete DeleteRange has `ts() = 0`. -/
theorem ts_governing_timestamp_witness :
    ((Command.mk ⟨CommandPri.Normal, "c"⟩ (.Commit [⟨[107]⟩] 5 7)).ts =
        tsSpec (.Commit [⟨[107]⟩] 5 7) ∧
      ¬ (Command.mk ⟨CommandPri.Normal, "c"⟩ (.Commit [⟨[107]⟩] 5 7)).ts
          = TimeStamp.zero) ∧
    (Command.mk ⟨CommandPri.Normal, "c"⟩
        (.DeleteRange ⟨[1]⟩ ⟨[2]⟩)).ts = TimeStamp.zero := by
  refine ⟨⟨(ts_governing_timestamp _).1, fun h => ?_⟩,
    ((ts_governing_timestamp _).2 (by decide)).2 (by decide)⟩
  exact absurd (((ts_governing_timestamp _).2 (by decide)).1 h)
    (by decide)

/-- Position of each `CommandKind` variant in the catalog; two kinds "are
different variants" when their positions differ. -/
def ctorIdx : CommandKind → Nat
  | .Prewrite .. => 0
  | .AcquirePessimisticLock .. => 1
  | .Commit .. => 2
  | .Cleanup .. => 3
  | .Rollback .. => 4
  | .PessimisticRollback .. => 5
  | .TxnHeartBeat .. => 6
  | .CheckTxnStatus .. => 7
  | .ScanLock .. => 8
  | .ResolveLock .. => 9
  | .ResolveLockLite .. => 10
  | .DeleteRange .. => 11
  | .Pause .. => 12
  | .MvccByKey .. => 13
  | .MvccByStartTs .. => 14

/-- Position of each metrics identifier, mirroring `ctorIdx`. -/
def tagIdx : MetricsCommandKind → Nat
  | .prewrite => 0
  | .acquire_pessimistic_lock => 1
  | .commit => 2
  | .cleanup => 3
  | .rollback => 4
  | .pessimistic_rollback => 5
  | .txn_heart_beat => 6
  | .check_txn_status => 7
  | .scan_lock => 8
  | .resolve_lock => 9
  | .resolve_lock_lite => 10
  | .delete_range => 11
  | .pause => 12
  | .key_mvcc => 13
  | .start_ts_mvcc => 14

/-- `tag()` determines the variant position: helper for distinctness. -/
theorem tagIdx_tag (c : Command) : tagIdx c.tag = ctorIdx c.kind := by
  obtain ⟨ctx, kind⟩ := c
  cases kind <;> rfl

/-- C4: `tag()` is total over the 15 variants (it is a Lean function on
the closed sum) and distinct across variants: commands of different
variants get different tags. -/
theorem tag_distinct_per_variant (c c' : Command)
    (h : ctorIdx c.kind ≠ ctorIdx c'.kind) : c.tag ≠ c'.tag := by
  intro heq
  exact h (by rw [← tagIdx_tag, ← tagIdx_tag, heq])

/-- C4 witness: a Prewrite and a Commit are different variants and get
different tags. -/
theorem tag_distinct_per_variant_witness :
    ctorIdx (CommandKind.Prewrite [] [] 1 Options.default) ≠
        ctorIdx (CommandKind.Commit [] 1 2) ∧
      (Command.mk ⟨CommandPri.Normal, "c"⟩
          (.Prewrite [] [] 1 Options.default)).tag ≠
        (Command.mk ⟨CommandPri.Normal, "c"⟩ (.Commit [] 1 2)).tag :=
  ⟨by decide, tag_distinct_per_variant _ _ (by decide)⟩

/-- The spec's per-mutation byte weight: encoded key length plus value
length for Put/Insert, encoded key length alone for Delete/Lock. -/
def mutationWriteBytes : Mutation → Nat
  | .Put (key, value) => key.as_encoded.length + value.length
  | .Insert (key, value) => key.as_encoded.length + value.length
  | .Delete key => key.as_encoded.length
  | .Lock key => key.as_encoded.length

/-- The Prewrite loop accumulates the per-mutation byte weights. -/
theorem foldl_prewriteStep (mutations : List Mutation) (acc : Nat) :
    mutations.foldl prewriteStep acc
      = acc + (mutations.map mutationWriteBytes).sum := by
  induction mutations generalizing acc with
  | nil => simp
  | cons m ms ih =>
    have hstep : prewriteStep acc m = acc + mutationWriteBytes m := by
      cases m with
      | Put p => cases p; simp [prewriteStep, mutationWriteBytes, Nat.add_assoc]
      | Insert p => cases p; simp [prewriteStep, mutationWriteBytes, Nat.add_assoc]
      | Delete k => rfl
      | Lock k => rfl
    simp [List.foldl_cons, ih, hstep, Nat.add_assoc]

/-- C5: `write_bytes()` of a Prewrite sums the per-mutation weights
(encoded key length plus value length for Put/Insert, encoded key length
for Delete/Lock); for mutations `[Put(k1,v1), Delete(k2)]` it equals
`len(encode(k1)) + len(v1) + len(encode(k2))`; every ScanLock has
`write_bytes() = 0`. -/
theorem write_bytes_prewrite_scanlock :
    (∀ ctx mutations primary start_ts options,
      (Command.mk ctx
          (.Prewrite mutations primary start_ts options)).write_bytes
        = (mutations.map mutationWriteBytes).sum) ∧
    (∀ ctx primary start_ts options k1 v1 k2,
      (Command.mk ctx
          (.Prewrite [.Put (k1, v1), .Delete k2] primary start_ts
            options)).write_bytes
        = k1.as_encoded.length + v1.length + k2.as_encoded.length) ∧
    (∀ ctx max_ts start_key limit,
      (Command.mk ctx (.ScanLock max_ts start_key limit)).write_bytes
        = 0) := by
  refine ⟨fun ctx mutations primary start_ts options => ?_,
    fun ctx primary start_ts options k1 v1 k2 => ?_,
    fun ctx max_ts start_key limit => rfl⟩
  · simpa using foldl_prewriteStep mutations 0
  · show List.foldl prewriteStep 0 _ = _
    simp [prewriteStep]

/-- C8: `write_bytes()` is 0 for every DeleteRange, MvccByKey and
MvccByStartTs command, even though DeleteRange carries `start_key` and
`end_key` and MvccByKey carries a key: these variants fall into the
catch-all arm. -/
theorem write_bytes_zero_for_keyless_reads :
    (∀ ctx start_key end_key,
      (Command.mk ctx (.DeleteRange start_key end_key)).write_bytes = 0) ∧
    (∀ ctx key, (Command.mk ctx (.MvccByKey key)).write_bytes = 0) ∧
    (∀ ctx start_ts,
      (Command.mk ctx (.MvccByStartTs start_ts)).write_bytes = 0) :=
  ⟨fun _ _ _ => rfl, fun _ _ => rfl, fun _ _ => rfl⟩

/-- C9: both `PointGetCommand` constructors yield the same shape
(context taken from the request, key encoded from the raw bytes) and
differ only in the timestamp: `from_get` always sets `ts` to `some` of
the request's version, `from_raw_get` always sets it to `none`. -/
theorem point_get_constructors :
    (∀ r : GetRequest,
      (PointGetCommand.from_get r).ts = some r.version ∧
      (PointGetCommand.from_get r).ts.isSome = true ∧
      (PointGetCommand.from_get r).ctx = r.context ∧
      (PointGetCommand.from_get r).key = Key.from_raw r.key) ∧
    (∀ r : RawGetRequest,
      (PointGetCommand.from_raw_get r).ts = none ∧
      (PointGetCommand.from_raw_get r).ctx = r.context ∧
      (PointGetCommand.from_raw_get r).key = Key.from_raw r.key) :=
  ⟨fun _ => ⟨rfl, rfl, rfl, rfl⟩, fun _ => ⟨rfl, rfl, rfl⟩⟩

/-- C10: the fluent setter `Options::reverse_scan` sets the
`reverse_scan` field to true and leaves every other field unchanged. -/
theorem reverse_scan_frame (o : Options) :
    o.reverseScan.reverse_scan = true ∧
    o.reverseScan.lock_ttl = o.lock_ttl ∧
    o.reverseScan.skip_constraint_check = o.skip_constraint_check ∧
    o.reverseScan.key_only = o.key_only ∧
    o.reverseScan.is_first_lock = o.is_first_lock ∧
    o.reverseScan.for_update_ts = o.for_update_ts ∧
    o.reverseScan.is_pessimistic_lock = o.is_pessimistic_lock ∧
    o.reverseScan.txn_size = o.txn_size ∧
    o.reverseScan.min_commit_ts = o.min_commit_ts ∧
    o.reverseScan.wait_timeout = o.wait_timeout :=
  ⟨rfl, rfl, rfl, rfl, rfl, rfl, rfl, rfl, rfl, rfl⟩

/-! ### Substring containment for the Display claim -/

/-- `hasSub need hay`: `need` occurs as a contiguous run inside `hay`. -/
def hasSub : List Char → List Char → Bool
  | need, [] => need.isEmpty
  | need, c :: t => need.isPrefixOf (c :: t) || hasSub need t

/-- A list is a prefix (in the `isPrefixOf` sense) of itself followed by
anything. -/
theorem isPrefixOf_append_self (n b : List Char) :
    n.isPrefixOf (n ++ b) = true := by
  induction n with
  | nil => cases b <;> rfl
  | cons a t ih => simp [List.isPrefixOf, ih]

/-- Every list contains itself as a substring. -/
theorem hasSub_self (n : List Char) : hasSub n n = true := by
  cases n with
  | nil => rfl
  | cons a t =>
    have h := isPrefixOf_append_self (a :: t) []
    rw [List.append_nil] at h
    simp [hasSub, h]

/-- Substring containment survives prepending. -/
theorem hasSub_append_left (n a r : List Char)
    (h : hasSub n r = true) : hasSub n (a ++ r) = true := by
  induction a with
  | nil => simpa using h
  | cons c t ih => simp [hasSub, ih]

/-- A string concatenation `s ++ d` contains `d`. -/
theorem hasSub_str (s d : String) :
    hasSub d.data (s ++ d).data = true := by
  obtain ⟨sd⟩ := s
  obtain ⟨dd⟩ := d
  exact hasSub_append_left _ _ _ (hasSub_self _)

/-- The two Display arms that do not print the request context. -/
def CommandKind.isResolveArm : CommandKind → Bool
  | .ResolveLock .. => true
  | .ResolveLockLite .. => true
  | _ => false

/-- C7 counterexample: a ResolveLock command's rendering is the constant
string "kv::resolve_lock" and does not contain the context's debug form,
contradicting the claim that every variant's rendering includes it. -/
theorem display_ctx_counterexample :
    (Command.mk ⟨CommandPri.Normal, "ctx"⟩
        (.ResolveLock [] none [])).fmt = "kv::resolve_lock" ∧
      hasSub (Command.mk ⟨CommandPri.Normal, "ctx"⟩
          (.ResolveLock [] none [])).ctx.debugRepr.data
        (Command.mk ⟨CommandPri.Normal, "ctx"⟩
            (.ResolveLock [] none [])).fmt.data = false :=
  ⟨rfl, by decide⟩

/-- C7 amended: the rendering of every Command whose kind is not
ResolveLock or ResolveLockLite contains the request context's debug form;
the ResolveLock and ResolveLockLite arms print a constant string without
it. -/
theorem display_ctx_amended (c : Command)
    (h : c.kind.isResolveArm = false) :
    hasSub c.ctx.debugRepr.data c.fmt.data = true := by
  obtain ⟨ctx, kind⟩ := c
  cases kind
  case ResolveLock => simp [CommandKind.isResolveArm] at h
  case ResolveLockLite => simp [CommandKind.isResolveArm] at h
  all_goals exact hasSub_str _ _

/-- C7 amended witness: a concrete Pause command's rendering contains its
context's debug form. -/
theorem display_ctx_amended_witness :
    hasSub (Command.mk ⟨CommandPri.Normal, "ctx"⟩
        (.Pause [] 5)).ctx.debugRepr.data
      (Command.mk ⟨CommandPri.Normal, "ctx"⟩ (.Pause [] 5)).fmt.data
      = true :=
  display_ctx_amended _ rfl

end Tikv
